import Mathlib

/-!
Shallow embedding of the trading bot's decision-engine code and proofs about it.

Prices, score components and percentages are modelled as rationals (`ℚ`);
Python dictionaries are modelled as insertion-ordered association lists;
market data that the code fetches and may fail to obtain is modelled as
`Option` inputs (`none` = the provider's "no data" sentinel).
-/

namespace TradingBot

/-! ## Scoring model

`BaseStrategy.calculate_weighted_score` (src/strategies/base_strategy.py) and
`WeekendAnalysisPipeline._calculate_final_score` (src/analysis/weekend_pipeline.py)
share the same quantization ladder but differ in their defaults.
-/

/-- The shared 1-5 quantization of a weighted average, as written in both scorers. -/
def quantizeScore (avg : ℚ) : Int :=
  if avg ≥ 0.8 then 5
  else if avg ≥ 0.65 then 4
  else if avg ≥ 0.5 then 3
  else if avg ≥ 0.35 then 2
  else 1

/-- The accumulation loop common to both scorers: fold over the weight map,
adding `component * weight` to the weighted sum and `weight` to the total weight
whenever the weight's name is present in the components map; absent names are
skipped entirely (never treated as zero). -/
def weightedAccum (components : List (String × ℚ)) (weights : List (String × ℚ)) : ℚ × ℚ :=
  weights.foldl
    (fun acc nw =>
      match components.lookup nw.1 with
      | some v => (acc.1 + v * nw.2, acc.2 + nw.2)
      | none => acc)
    (0, 0)

/-- `BaseStrategy.calculate_weighted_score`, src/strategies/base_strategy.py lines 151-182.
`score_weights` is the strategy's weight dict; empty weights or zero accumulated
weight return the default score 3. -/
def calculate_weighted_score (score_weights components : List (String × ℚ)) : Int :=
  if score_weights = [] then 3
  else if (weightedAccum components score_weights).2 = 0 then 3
  else quantizeScore
    ((weightedAccum components score_weights).1 / (weightedAccum components score_weights).2)

/-- `WeekendAnalysisPipeline._calculate_final_score`, src/analysis/weekend_pipeline.py
lines 727-756. Unlike the base-strategy scorer it has no empty-weights guard and
returns 2 (not 3) when the total weight is zero. -/
def calculate_final_score (score_weights scores : List (String × ℚ)) : Int :=
  if (weightedAccum scores score_weights).2 = 0 then 2
  else quantizeScore
    ((weightedAccum scores score_weights).1 / (weightedAccum scores score_weights).2)

/-- `config.SCORE_WEIGHTS`, src/config.py lines 69-75. -/
def SCORE_WEIGHTS : List (String × ℚ) :=
  [("gap_behavior", 0.25), ("trend_consistency", 0.20), ("analyst_sensitivity", 0.20),
   ("volatility_alignment", 0.15), ("sentiment_bias", 0.20)]

theorem quantizeScore_range (avg : ℚ) : 1 ≤ quantizeScore avg ∧ quantizeScore avg ≤ 5 := by
  unfold quantizeScore
  split_ifs <;> norm_num

theorem weightedAccum_empty (weights : List (String × ℚ)) :
    weightedAccum [] weights = (0, 0) := by
  unfold weightedAccum
  induction weights with
  | nil => rfl
  | cons w ws ih => simp [weightedAccum]

theorem calculate_weighted_score_range (W C : List (String × ℚ)) :
    1 ≤ calculate_weighted_score W C ∧ calculate_weighted_score W C ≤ 5 := by
  unfold calculate_weighted_score
  split_ifs <;> (first | exact quantizeScore_range _ | norm_num)

theorem calculate_final_score_range (W C : List (String × ℚ)) :
    1 ≤ calculate_final_score W C ∧ calculate_final_score W C ≤ 5 := by
  unfold calculate_final_score
  split_ifs <;> (first | exact quantizeScore_range _ | norm_num)

/-- C1 counterexample: the weekend pipeline's `_calculate_final_score`, applied to
the production weight map and an empty components map, returns 2, not the claimed
default of 3. -/
theorem C1_pipeline_default_is_2 :
    calculate_final_score SCORE_WEIGHTS [] = 2 ∧ (2 : Int) ≠ 3 := by
  constructor
  · rw [calculate_final_score, weightedAccum_empty]
    norm_num
  · decide

/-- C1 (amended): both scorers always return an integer score in [1,5], and with no
weighted components present (empty components map) the strategies'
`calculate_weighted_score` returns the default 3 for every weight map, while the
weekend pipeline's `_calculate_final_score` returns 2 for every weight map. -/
theorem C1_scoring_range_and_defaults :
    (∀ W C : List (String × ℚ),
      1 ≤ calculate_weighted_score W C ∧ calculate_weighted_score W C ≤ 5) ∧
    (∀ W C : List (String × ℚ),
      1 ≤ calculate_final_score W C ∧ calculate_final_score W C ≤ 5) ∧
    (∀ W : List (String × ℚ), calculate_weighted_score W [] = 3) ∧
    (∀ W : List (String × ℚ), calculate_final_score W [] = 2) := by
  refine ⟨calculate_weighted_score_range, calculate_final_score_range, ?_, ?_⟩
  · intro W
    rw [calculate_weighted_score, weightedAccum_empty]
    norm_num
  · intro W
    rw [calculate_final_score, weightedAccum_empty]
    norm_num

/-! ## Invalidation engine

`EarningsExecutor.check_invalidation` (src/analysis/earnings_executor.py lines 264-313),
`BreakoutStrategy.check_invalidation` (src/strategies/breakout.py lines 488-534) and
`MeanReversionStrategy.check_invalidation` (src/strategies/mean_reversion.py lines 446-485).

Each implementation is a chain of early returns; we record which rule's return
statement fired. Time is abstracted by passing the computed `days_held`
(`(datetime.now() - entry_time).days`); an unparseable entry date is `none`.
-/

/-- The exit rules appearing across the three `check_invalidation` implementations,
identified by the reason string each returns. -/
inductive ExitRule where
  | maxLoss       -- earnings executor rule 1, "Max loss triggered"
  | trailingStop  -- earnings executor rule 2 / breakout rule 1, "Trailing stop"
  | maxHold       -- "Max hold period" / "Max hold"
  | smaClose      -- breakout rule 2, "Closed below 20 SMA"
  | initialStop   -- breakout rule 4, "Initial stop"
  | stopLoss      -- mean reversion rule 1, "Stop loss"
  | rsiTarget     -- mean reversion rule 2, "RSI target reached"
  | takeProfit    -- mean reversion rule 4, "Take profit"
  deriving DecidableEq, Repr

/-- `config.INVALIDATION_RULES`, src/config.py lines 106-111 (the sentiment
threshold is never read by `check_invalidation`). -/
structure InvalidationRules where
  max_loss_pct : ℚ
  trailing_stop_pct : ℚ
  max_hold_days : ℤ
  deriving DecidableEq

def INVALIDATION_RULES : InvalidationRules := ⟨-8, 5, 10⟩

/-- Result of `EarningsExecutor.check_invalidation`: the `(should_close, reason)`
pair (reason abstracted to the rule that fired) together with the position's
stored `highest_price` after the check (the ratchet write-back at lines 284-290). -/
structure EarningsCheckResult where
  should_close : Bool
  rule : Option ExitRule
  highest_price : ℚ
  deriving DecidableEq, Repr

/-- The highest-price update of src/analysis/earnings_executor.py lines 284-290
(and the local update at src/strategies/breakout.py lines 504-506):
the stored highest only ever moves up, to the latest observed price. -/
def ratchet (highest c : ℚ) : ℚ :=
  if c > highest then c else highest

/-- `EarningsExecutor.check_invalidation`, src/analysis/earnings_executor.py
lines 264-313. `current = none` models an unavailable price; `some 0` is falsy in
Python (`if not current`), so it is likewise a no-op. `entry_price = 0` makes the
`pnl_pct` division raise `ZeroDivisionError`, caught by the enclosing `except`
AFTER the highest-price ratchet has already been persisted. -/
def earnings_check_invalidation (rules : InvalidationRules) (entry_price highest : ℚ)
    (days_held : ℤ) (current : Option ℚ) : EarningsCheckResult :=
  match current with
  | none => ⟨false, none, highest⟩
  | some c =>
    if c = 0 then ⟨false, none, highest⟩
    else if entry_price = 0 then ⟨false, none, ratchet highest c⟩
    else if (c - entry_price) / entry_price * 100 ≤ rules.max_loss_pct then
      ⟨true, some .maxLoss, ratchet highest c⟩
    else if ratchet highest c > entry_price ∧
        (ratchet highest c - c) / ratchet highest c * 100 ≥ rules.trailing_stop_pct then
      ⟨true, some .trailingStop, ratchet highest c⟩
    else if days_held ≥ rules.max_hold_days then
      ⟨true, some .maxHold, ratchet highest c⟩
    else ⟨false, none, ratchet highest c⟩

/-- Result of a strategy-side `check_invalidation`: the `(should_close, reason)`
pair with the reason abstracted to the rule that fired. -/
structure StrategyCheckResult where
  should_close : Bool
  rule : Option ExitRule
  deriving DecidableEq, Repr

/-- The max-hold test shared by the strategy checks: `entry_date` present and
parseable, and `(now - entry_date).days >= max_hold_days`. -/
def hold_days_exceeded (max_hold_days : ℤ) (days_held : Option ℤ) : Bool :=
  match days_held with
  | some d => decide (d ≥ max_hold_days)
  | none => false

/-- `BreakoutStrategy.check_invalidation`, src/strategies/breakout.py lines 488-534.
`hist = some (current, sma20)` carries the last close and the 20-day moving average
read from the fetched history; `none` models an unavailable history. `days_held`
is `none` when `entry_date` is absent or unparseable (both are silently skipped).
The strategy's configured `max_hold_days` is 30. -/
def breakout_check_invalidation (max_hold_days : ℤ) (entry_price highest0 : ℚ)
    (days_held : Option ℤ) (hist : Option (ℚ × ℚ)) : StrategyCheckResult :=
  if entry_price = 0 then ⟨false, none⟩
  else
    match hist with
    | none => ⟨false, none⟩
    | some (current, sma20) =>
      if ratchet highest0 current > entry_price ∧
          (ratchet highest0 current - current) / ratchet highest0 current * 100 ≥ 10 then
        ⟨true, some .trailingStop⟩
      else if current < sma20 then ⟨true, some .smaClose⟩
      else if hold_days_exceeded max_hold_days days_held then ⟨true, some .maxHold⟩
      else if (current - entry_price) / entry_price * 100 ≤ -5 then ⟨true, some .initialStop⟩
      else ⟨false, none⟩

/-- The RSI exit test of mean reversion: `if rsi and rsi > self.rsi_exit` —
`rsi` must be non-`None`, non-zero (Python falsiness) and above the threshold. -/
def rsi_exit_triggered (rsi_exit : ℚ) (rsi : Option ℚ) : Bool :=
  match rsi with
  | some r => decide (¬r = 0) && decide (r > rsi_exit)
  | none => false

/-- `MeanReversionStrategy.check_invalidation`, src/strategies/mean_reversion.py
lines 446-485. `hist = some (current, rsi)` carries the last close and the RSI(2)
computed from the history (`rsi = none` when `_calculate_rsi` returns `None`;
`some 0` is falsy in Python's `if rsi and ...`). The strategy's configured
`max_hold_days` is 5 and `rsi_exit` is 70. -/
def mean_reversion_check_invalidation (rsi_exit : ℚ) (max_hold_days : ℤ) (entry_price : ℚ)
    (days_held : Option ℤ) (hist : Option (ℚ × Option ℚ)) : StrategyCheckResult :=
  if entry_price = 0 then ⟨false, none⟩
  else
    match hist with
    | none => ⟨false, none⟩
    | some (current, rsi) =>
      if (current - entry_price) / entry_price * 100 ≤ -5 then ⟨true, some .stopLoss⟩
      else if rsi_exit_triggered rsi_exit rsi then ⟨true, some .rsiTarget⟩
      else if hold_days_exceeded max_hold_days days_held then ⟨true, some .maxHold⟩
      else if (current - entry_price) / entry_price * 100 ≥ 5 then ⟨true, some .takeProfit⟩
      else ⟨false, none⟩

/-- The stored `highest_price` after running the earnings executor's invalidation
check once per observed price, in order (the per-cycle loop of
`EarningsExecutor.manage_positions` restricted to the ratchet state). -/
def run_invalidation_checks (rules : InvalidationRules) (entry_price : ℚ) (days_held : ℤ)
    (prices : List ℚ) (h0 : ℚ) : ℚ :=
  prices.foldl (fun h p => (earnings_check_invalidation rules entry_price h days_held (some p)).highest_price) h0

/-- C2 counterexample: with entry=100 and the production stop floor of -8%, a
current price of exactly 92 (pnl exactly -8%) DOES trigger the max-loss rule,
because the code compares `pnl_pct <= max_loss_pct`; the claim says the boundary
does not trigger. -/
theorem C2_boundary_triggers :
    earnings_check_invalidation INVALIDATION_RULES 100 100 0 (some 92)
      = ⟨true, some .maxLoss, 100⟩ := by
  norm_num [earnings_check_invalidation, INVALIDATION_RULES, ratchet]

/-- C2 (amended): with entry=100 and stop floor -8%, current=91 triggers the
max-loss rule, current=92 (exactly -8%) ALSO triggers it (the comparison is
`pnl_pct ≤ floor`, inclusive), and current=93 triggers nothing. -/
theorem C2_max_loss_examples :
    earnings_check_invalidation INVALIDATION_RULES 100 100 0 (some 91)
      = ⟨true, some .maxLoss, 100⟩ ∧
    earnings_check_invalidation INVALIDATION_RULES 100 100 0 (some 92)
      = ⟨true, some .maxLoss, 100⟩ ∧
    earnings_check_invalidation INVALIDATION_RULES 100 100 0 (some 93)
      = ⟨false, none, 100⟩ := by
  refine ⟨?_, ?_, ?_⟩ <;> norm_num [earnings_check_invalidation, INVALIDATION_RULES, ratchet]

theorem ratchet_le (h c : ℚ) : h ≤ ratchet h c := by
  unfold ratchet
  split_ifs with hc
  · exact le_of_lt hc
  · exact le_refl h

/-! ### Strategy-tracked positions: the stored highest is never ratcheted

`StrategyManager.save_strategy_position` (src/strategies/manager.py lines 261-276)
initialises a strategy position's stored `highest_price` to its entry price, and
no later code path updates it: `check_all_invalidations` (lines 217-249) reads
the stored record and never writes the position map back, and
`BreakoutStrategy.check_invalidation` (breakout.py lines 504-506) ratchets only a
local variable without any storage write.
-/

/-- The stored fields of one `strategy_positions.json` record relevant to the
ratchet. `save_strategy_position` (manager.py line 269) writes
`highest_price := entry_price`. -/
structure StrategyPositionRecord where
  entry_price : ℚ
  highest_price : ℚ
  deriving DecidableEq, Repr

/-- `StrategyManager.save_strategy_position` restricted to the price fields:
the freshly stored record has `highest_price = entry_price`. -/
def save_strategy_position_record (entry_price : ℚ) : StrategyPositionRecord :=
  ⟨entry_price, entry_price⟩

/-- One manager invalidation cycle for a breakout-tracked position: the stored
record is read, `BreakoutStrategy.check_invalidation` runs on its fields
(ratcheting only its local copy of `highest_price`), and the store is not written
back — neither `check_all_invalidations` nor the breakout check contains a
storage write. The cycle yields the check result and the (unchanged) stored
record. -/
def manager_breakout_cycle (max_hold_days : ℤ) (days_held : Option ℤ)
    (record : StrategyPositionRecord) (hist : Option (ℚ × ℚ)) :
    StrategyCheckResult × StrategyPositionRecord :=
  (breakout_check_invalidation max_hold_days record.entry_price record.highest_price
    days_held hist, record)

/-- The stored record of a breakout-tracked position after one manager cycle per
observed `(price, sma20)` pair. -/
def run_manager_breakout_cycles (max_hold_days : ℤ) (days_held : Option ℤ)
    (record : StrategyPositionRecord) (observations : List (ℚ × ℚ)) :
    StrategyPositionRecord :=
  observations.foldl
    (fun r obs => (manager_breakout_cycle max_hold_days days_held r (some obs)).2) record

theorem run_manager_breakout_cycles_id (mh : ℤ) (dh : Option ℤ)
    (r : StrategyPositionRecord) (obs : List (ℚ × ℚ)) :
    run_manager_breakout_cycles mh dh r obs = r := by
  induction obs generalizing r with
  | nil => rfl
  | cons o rest ih => exact ih r

/-- C3 counterexample: for a breakout-tracked position entered at 100 (so the
stored `highest_price` starts at 100 per `save_strategy_position`), replaying the
manager's invalidation cycles over the observed price sequence
[100,105,103,108,95] leaves the STORED `highest_price` at 100 — not the claimed
108 — because nothing ever persists breakout's local ratchet. -/
theorem C3_strategy_highest_not_persisted :
    (run_manager_breakout_cycles 30 (some 0) (save_strategy_position_record 100)
        [(100, 90), (105, 90), (103, 90), (108, 90), (95, 90)]).highest_price = 100 ∧
    (100 : ℚ) ≠ 108 := by
  constructor
  · rfl
  · norm_num

/-- C3 (amended): the ratchet-and-persist behaviour holds only for the earnings
executor's tracked positions: there the stored highest after a check does not
depend on the rule thresholds, the entry price or the hold time (so it is the
same whether or not any rule fires), never decreases, and replaying the checks
over [100,105,103,108,95] ends at 108. Strategy-tracked positions are never
ratcheted: `save_strategy_position` initialises the stored `highest_price` to the
entry price, every manager invalidation cycle leaves the stored record exactly
unchanged (breakout's ratchet is local only), and so the same price sequence
leaves the stored highest at the entry price. -/
theorem C3_ratchet_persisted_executor_only :
    (∀ rules rules' : InvalidationRules, ∀ e e' h : ℚ, ∀ d d' : ℤ, ∀ c : Option ℚ,
      (earnings_check_invalidation rules e h d c).highest_price
        = (earnings_check_invalidation rules' e' h d' c).highest_price) ∧
    (∀ rules : InvalidationRules, ∀ e h : ℚ, ∀ d : ℤ, ∀ c : Option ℚ,
      h ≤ (earnings_check_invalidation rules e h d c).highest_price) ∧
    run_invalidation_checks INVALIDATION_RULES 100 0 [100, 105, 103, 108, 95] 100 = 108 ∧
    (∀ e : ℚ, (save_strategy_position_record e).highest_price = e) ∧
    (∀ mh : ℤ, ∀ dh : Option ℤ, ∀ r : StrategyPositionRecord, ∀ hist : Option (ℚ × ℚ),
      (manager_breakout_cycle mh dh r hist).2 = r) ∧
    (∀ mh : ℤ, ∀ dh : Option ℤ, ∀ e : ℚ, ∀ obs : List (ℚ × ℚ),
      (run_manager_breakout_cycles mh dh (save_strategy_position_record e) obs).highest_price
        = e) := by
  refine ⟨?_, ?_, ?_, ?_, ?_, ?_⟩
  · intro rules rules' e e' h d d' c
    cases c with
    | none => rfl
    | some x =>
      simp only [earnings_check_invalidation]
      split_ifs <;> rfl
  · intro rules e h d c
    cases c with
    | none => exact le_refl h
    | some x =>
      simp only [earnings_check_invalidation]
      split_ifs <;> first | exact le_refl h | exact ratchet_le h x
  · norm_num [run_invalidation_checks, earnings_check_invalidation, ratchet,
      INVALIDATION_RULES]
  · intro e
    rfl
  · intro mh dh r hist
    rfl
  · intro mh dh e obs
    rw [run_manager_breakout_cycles_id]
    rfl

/-- C5 counterexample: a breakout position with entry=100, highest-since-entry=150,
current=80 satisfies the hard stop-loss condition (pnl = -20% ≤ -5%), yet
`BreakoutStrategy.check_invalidation` returns the trailing-stop rule, because in
that implementation the trailing stop is evaluated FIRST and the hard stop LAST —
refuting the claimed canonical order (hard stop-loss first). -/
theorem C5_breakout_order_counterexample :
    ((80 : ℚ) - 100) / 100 * 100 ≤ -5 ∧
    breakout_check_invalidation 30 100 150 none (some (80, 70)) = ⟨true, some .trailingStop⟩ ∧
    some ExitRule.trailingStop ≠ some ExitRule.initialStop := by
  refine ⟨by norm_num, ?_, by decide⟩
  norm_num [breakout_check_invalidation, ratchet]

/-- C5 (amended): every implementation returns on the first matching rule of its
OWN fixed order, and a close happens exactly when some rule fired — but the orders
differ: the earnings executor checks the hard stop first (then trailing, then max
hold); mean reversion checks its hard stop first (then RSI target, then max hold,
then take profit — it has no trailing stop); breakout checks its trailing stop
first and its hard stop LAST (after the 20-SMA target and max hold). -/
theorem C5_rule_order :
    (∀ rules : InvalidationRules, ∀ e h : ℚ, ∀ d : ℤ, ∀ c : ℚ, c ≠ 0 → e ≠ 0 →
      (c - e) / e * 100 ≤ rules.max_loss_pct →
      earnings_check_invalidation rules e h d (some c) = ⟨true, some .maxLoss, ratchet h c⟩) ∧
    (∀ mh : ℤ, ∀ e h0 : ℚ, ∀ d : Option ℤ, ∀ c sma : ℚ, e ≠ 0 →
      ratchet h0 c > e → (ratchet h0 c - c) / ratchet h0 c * 100 ≥ 10 →
      breakout_check_invalidation mh e h0 d (some (c, sma)) = ⟨true, some .trailingStop⟩) ∧
    (∀ rx : ℚ, ∀ mh : ℤ, ∀ e : ℚ, ∀ d : Option ℤ, ∀ c : ℚ, ∀ rsi : Option ℚ, e ≠ 0 →
      (c - e) / e * 100 ≤ -5 →
      mean_reversion_check_invalidation rx mh e d (some (c, rsi)) = ⟨true, some .stopLoss⟩) ∧
    (∀ rules : InvalidationRules, ∀ e h : ℚ, ∀ d : ℤ, ∀ c : Option ℚ,
      (earnings_check_invalidation rules e h d c).should_close
        = (earnings_check_invalidation rules e h d c).rule.isSome) ∧
    (∀ mh : ℤ, ∀ e h0 : ℚ, ∀ d : Option ℤ, ∀ hist : Option (ℚ × ℚ),
      (breakout_check_invalidation mh e h0 d hist).should_close
        = (breakout_check_invalidation mh e h0 d hist).rule.isSome) ∧
    (∀ rx : ℚ, ∀ mh : ℤ, ∀ e : ℚ, ∀ d : Option ℤ, ∀ hist : Option (ℚ × Option ℚ),
      (mean_reversion_check_invalidation rx mh e d hist).should_close
        = (mean_reversion_check_invalidation rx mh e d hist).rule.isSome) := by
  refine ⟨?_, ?_, ?_, ?_, ?_, ?_⟩
  · intro rules e h d c hc he hloss
    simp only [earnings_check_invalidation]
    rw [if_neg hc, if_neg he, if_pos hloss]
  · intro mh e h0 d c sma he htrail hdrop
    simp only [breakout_check_invalidation]
    rw [if_neg he, if_pos ⟨htrail, hdrop⟩]
  · intro rx mh e d c rsi he hloss
    simp only [mean_reversion_check_invalidation]
    rw [if_neg he, if_pos hloss]
  · intro rules e h d c
    cases c with
    | none => rfl
    | some x =>
      simp only [earnings_check_invalidation]
      split_ifs <;> rfl
  · intro mh e h0 d hist
    cases hist with
    | none => simp only [breakout_check_invalidation]; split_ifs <;> rfl
    | some p =>
      obtain ⟨c, sma⟩ := p
      simp only [breakout_check_invalidation]
      split_ifs <;> rfl
  · intro rx mh e d hist
    cases hist with
    | none => simp only [mean_reversion_check_invalidation]; split_ifs <;> rfl
    | some p =>
      obtain ⟨c, rsi⟩ := p
      simp only [mean_reversion_check_invalidation]
      split_ifs <;> rfl

/-- C5 witness: the three first-matching-rule facts of `C5_rule_order` instantiated
at concrete positions. -/
theorem C5_rule_order_witness :
    earnings_check_invalidation INVALIDATION_RULES 100 100 0 (some 90)
      = ⟨true, some .maxLoss, ratchet 100 90⟩ ∧
    breakout_check_invalidation 30 100 150 none (some (80, 70))
      = ⟨true, some .trailingStop⟩ ∧
    mean_reversion_check_invalidation 70 5 100 none (some (94, some 50))
      = ⟨true, some .stopLoss⟩ := by
  refine ⟨?_, ?_, ?_⟩
  · exact C5_rule_order.1 INVALIDATION_RULES 100 100 0 90 (by norm_num) (by norm_num)
      (by norm_num [INVALIDATION_RULES])
  · exact C5_rule_order.2.1 30 100 150 none 80 70 (by norm_num) (by norm_num [ratchet])
      (by norm_num [ratchet])
  · exact C5_rule_order.2.2.1 70 5 100 none 94 (some 50) (by norm_num) (by norm_num)

/-- C7: for a position with entry=100 and highest-since-entry=120 under a 10%
trailing-stop ceiling, current=109 (an 8.33% drop from the high) triggers nothing,
while current=108 (exactly a 10% drop) triggers the trailing stop — both in the
breakout strategy (whose ceiling is hard-coded at 10%) and in the earnings
executor's rule evaluated with a 10% ceiling. -/
theorem C7_trailing_stop_boundary :
    breakout_check_invalidation 30 100 120 none (some (109, 100)) = ⟨false, none⟩ ∧
    breakout_check_invalidation 30 100 120 none (some (108, 100)) = ⟨true, some .trailingStop⟩ ∧
    earnings_check_invalidation ⟨-8, 10, 10⟩ 100 120 0 (some 109) = ⟨false, none, 120⟩ ∧
    earnings_check_invalidation ⟨-8, 10, 10⟩ 100 120 0 (some 108) =
      ⟨true, some .trailingStop, 120⟩ := by
  refine ⟨?_, ?_, ?_, ?_⟩ <;>
    norm_num [breakout_check_invalidation, earnings_check_invalidation, ratchet,
      hold_days_exceeded]

/-! ## Symbol cleaning

`clean_symbol`, src/core/t212_client.py lines 24-71 (the variant imported by the
weekend pipeline, the earnings executor and the strategies). Python string
methods are modelled character-wise on `String.data`.
-/

/-- Python's `str.upper()` (character-wise, as used on ASCII tickers). -/
def pyUpper (s : String) : String :=
  ⟨s.data.map Char.toUpper⟩

/-- `clean_symbol`, src/core/t212_client.py lines 24-71: drop leading `$`s, strip
whitespace, turn `.` into `-`, uppercase; then reject symbols that are empty,
longer than 5 characters, start with a digit, contain more than one digit, or
contain a character that is neither alphanumeric nor `-`. -/
def clean_symbol (symbol : String) : String :=
  if symbol = "" then ""
  else
    let stripped :=
      (((symbol.data.dropWhile (· = '$')).dropWhile Char.isWhitespace).reverse.dropWhile
        Char.isWhitespace).reverse
    let cs := (stripped.map (fun c => if c = '.' then '-' else c)).map Char.toUpper
    if cs.length < 1 ∨ cs.length > 5 then ""
    else if (cs.headD 'A').isDigit then ""
    else if 1 < (cs.filter Char.isDigit).length then ""
    else if ¬cs.all (fun c => c.isAlphanum || c == '-') then ""
    else ⟨cs⟩

/-! ## NO-TRADE gates

`EarningsExecutor.check_no_trade_conditions` (src/analysis/earnings_executor.py
lines 86-148) and `BreakoutStrategy.check_no_trade` (src/strategies/breakout.py
lines 451-484). The executor's gate returns `skip=true` whenever required data is
missing or its `try` block raises; the breakout gate has neither guard — checks
whose data is missing are silently skipped.
-/

/-- `config.NO_TRADE_RULES`, src/config.py lines 80-85 (the conflicting-signals
threshold is never read by any gate). -/
structure NoTradeRules where
  min_avg_volume : ℚ
  max_premarket_gap_pct : ℚ
  min_market_cap : ℚ
  deriving DecidableEq

def NO_TRADE_RULES : NoTradeRules := ⟨500000, 15, 500000000⟩

/-- The fields of the `get_info` payload read by the executor's gate
(`info.get(..., 0)` defaults both to 0, and Python treats 0 as falsy in the
market-cap test). -/
structure StockInfo where
  averageVolume : ℚ
  marketCap : ℚ
  deriving DecidableEq

/-- The gap filter of the executor's gate (src/analysis/earnings_executor.py
lines 113-119), with numpy float64 semantics for the division: the closes are
numpy scalars, so a zero previous close raises nothing — `(current - 0)/0` is
`±inf` when `current ≠ 0` (and `|±inf|` exceeds every finite ceiling, so the
reason is appended) and `nan` when `current = 0` (every comparison with `nan` is
false, so the filter is silently skipped). -/
def gap_reason (ceiling prev_close current : ℚ) : List String :=
  if prev_close = 0 then
    if ¬current = 0 then ["Gap too large"] else []
  else if |(current - prev_close) / prev_close * 100| > ceiling then ["Gap too large"]
  else []

/-- `EarningsExecutor.check_no_trade_conditions`, src/analysis/earnings_executor.py
lines 86-148. `info`/`closes` are the `get_info`/`get_history` results (`none` =
unavailable); `closes` is the Close column (`iloc[-1]`/`iloc[-2]` are the last and
second-to-last entries); `analysis` is the frozen `(final_score, gap_behavior)`
record, if any. Reasons are abstracted to fixed tags. -/
def earnings_check_no_trade (rules : NoTradeRules) (symbol : String)
    (info : Option StockInfo) (closes : Option (List ℚ))
    (analysis : Option (Int × String)) (has_position : Bool) : Bool × List String :=
  if clean_symbol symbol = "" then (true, ["Invalid symbol"])
  else
    match info, closes with
    | none, _ => (true, ["Cannot get stock info"])
    | some _, none => (true, ["Cannot get price history"])
    | some i, some cs =>
        let r1 : List String :=
          if i.averageVolume < rules.min_avg_volume then ["Low volume"] else []
        let r2 : List String :=
          if 2 ≤ cs.length then
            gap_reason rules.max_premarket_gap_pct (cs.reverse.getD 1 0) (cs.reverse.getD 0 0)
          else []
        let r3 : List String :=
          if ¬i.marketCap = 0 ∧ i.marketCap < rules.min_market_cap then
            ["Small market cap"] else []
        let r4 : List String :=
          match analysis with
          | some (score, _) => if score ≤ 2 then ["Low score"] else []
          | none => []
        let r5 : List String :=
          match analysis with
          | some (score, behavior) =>
            if behavior = "fade" ∧ score < 4 then ["Historical fader"] else []
          | none => []
        let r6 : List String := if has_position then ["Already have position"] else []
        let reasons := r1 ++ r2 ++ r3 ++ r4 ++ r5 ++ r6
        if ¬reasons = [] then (true, reasons) else (false, [])

/-- `BreakoutStrategy.check_no_trade`, src/strategies/breakout.py lines 451-484.
`hist = some (current, sma20, today_vol, avg_vol)` summarises the symbol's 1-month
history (last close, 20-day SMA, last volume, mean of the prior 19 volumes);
`spy = some (first_close, last_close)` summarises SPY's 5-day history. When either
fetch returns `None` the corresponding checks are simply skipped — there is no
fail-closed guard and no exception handler. -/
def breakout_check_no_trade (hist : Option (ℚ × ℚ × ℚ × ℚ)) (spy : Option (ℚ × ℚ)) :
    Bool × List String :=
  let r1 : List String :=
    match hist with
    | some (current, sma20, _, _) =>
      if (current - sma20) / sma20 * 100 > 10 then ["Already extended"] else []
    | none => []
  let r2 : List String :=
    match hist with
    | some (_, _, today_vol, avg_vol) =>
      if today_vol < avg_vol then ["Low volume breakout"] else []
    | none => []
  let r3 : List String :=
    match spy with
    | some (c0, c1) => if (c1 / c0 - 1) * 100 < -3 then ["Market weakness"] else []
    | none => []
  let reasons := r1 ++ r2 ++ r3
  if ¬reasons = [] then (true, reasons) else (false, [])

/-- C4 counterexample: when neither the symbol's history nor SPY's history can be
fetched, `BreakoutStrategy.check_no_trade` returns `skip=false` with no reasons —
it is NOT fail-closed, refuting the claim that every `check_no_trade`
implementation fails closed on unavailable data. -/
theorem C4_breakout_gate_fails_open :
    breakout_check_no_trade none none = (false, []) ∧ (false ≠ true) := by
  exact ⟨rfl, by decide⟩

/-- C4 (amended): the earnings executor's NO-TRADE gate is fail-closed on its
explicitly guarded inputs — a symbol rejected by `clean_symbol`, unavailable
stock info, or unavailable price history each yield `skip=true` — but the
breakout strategy's `check_no_trade` is fail-open: with all of its market data
unavailable it returns `skip=false` and no reasons. -/
theorem C4_fail_closed_executor_only :
    (∀ rules sym info closes analysis pos, clean_symbol sym = "" →
      (earnings_check_no_trade rules sym info closes analysis pos).1 = true) ∧
    (∀ rules sym closes analysis pos,
      (earnings_check_no_trade rules sym none closes analysis pos).1 = true) ∧
    (∀ rules sym i analysis pos,
      (earnings_check_no_trade rules sym (some i) none analysis pos).1 = true) ∧
    breakout_check_no_trade none none = (false, []) := by
  refine ⟨?_, ?_, ?_, rfl⟩
  · intro rules sym info closes analysis pos h
    unfold earnings_check_no_trade
    rw [if_pos h]
  · intro rules sym closes analysis pos
    unfold earnings_check_no_trade
    split_ifs <;> cases closes <;> rfl
  · intro rules sym i analysis pos
    unfold earnings_check_no_trade
    split_ifs <;> rfl

/-- C4 witness: the invalid-symbol conjunct of `C4_fail_closed_executor_only`
discharged at the empty symbol (which `clean_symbol` rejects). -/
theorem C4_fail_closed_executor_only_witness :
    (earnings_check_no_trade NO_TRADE_RULES "" none none none false).1 = true := by
  exact C4_fail_closed_executor_only.1 NO_TRADE_RULES "" none none none false (by decide)

/-! ## Weekend pipeline: earnings candidates

`WeekendAnalysisPipeline.get_earnings_candidates`, src/analysis/weekend_pipeline.py
lines 132-164: the filtering stage that intersects the fetched earnings calendar
with the refreshed universe.
-/

/-- One row of the fetched earnings calendar (the fields the filter reads). -/
structure EarningsItem where
  symbol : String
  date : String
  deriving DecidableEq, Repr

/-- One saved candidate (the fields the filter writes that the claim concerns). -/
structure EarningsCandidate where
  symbol : String
  date : String
  deriving DecidableEq, Repr

/-- The candidate filter of `get_earnings_candidates` (src/analysis/weekend_pipeline.py
lines 125-164): empty calendar → `[]`; empty universe → `[]`; otherwise keep each
calendar row whose cleaned symbol is non-empty and whose uppercased form is in the
uppercased universe. -/
def get_earnings_candidates (earnings_data : List EarningsItem) (univ : List String) :
    List EarningsCandidate :=
  if earnings_data = [] then []
  else if univ = [] then []
  else
    earnings_data.filterMap (fun item =>
      if clean_symbol item.symbol = "" then none
      else if ¬(pyUpper (clean_symbol item.symbol) ∈ univ.map pyUpper) then none
      else some ⟨clean_symbol item.symbol, item.date⟩)

/-- C8: every candidate the weekend pipeline produces has its (uppercased) symbol
in the (uppercased) refreshed universe, and with universe {AAPL, MSFT} and
calendar {AAPL, GOOG} exactly one candidate — AAPL — survives; GOOG is dropped. -/
theorem C8_candidates_within_universe :
    (∀ earnings_data univ,
      ∀ c ∈ get_earnings_candidates earnings_data univ,
        pyUpper c.symbol ∈ univ.map pyUpper) ∧
    get_earnings_candidates
        [⟨"AAPL", "2026-10-13"⟩, ⟨"GOOG", "2026-10-14"⟩] ["AAPL", "MSFT"]
      = [⟨"AAPL", "2026-10-13"⟩] := by
  constructor
  · intro earnings_data univ c hc
    unfold get_earnings_candidates at hc
    split_ifs at hc
    · simp at hc
    · simp at hc
    · rw [List.mem_filterMap] at hc
      obtain ⟨item, _, hf⟩ := hc
      split_ifs at hf with h1 h2
      rw [Option.some_inj] at hf
      subst hf
      simpa using h2
  · decide

/-- C8 witness: the membership fact instantiated on the concrete calendar and
universe of the claim's example. -/
theorem C8_candidates_within_universe_witness :
    pyUpper "AAPL" ∈ (["AAPL", "MSFT"].map pyUpper) := by
  have h := C8_candidates_within_universe
  exact h.1 [⟨"AAPL", "2026-10-13"⟩, ⟨"GOOG", "2026-10-14"⟩] ["AAPL", "MSFT"]
    ⟨"AAPL", "2026-10-13"⟩ (by rw [h.2]; exact List.mem_singleton.mpr rfl)

/-! ## Execution scheduler

`StrategyManager.execute_signals` (src/strategies/manager.py lines 289-326) and
`StrategyManager.check_all_invalidations` (lines 217-249). Broker interaction
(`_execute_buy`, lines 328-383) is abstracted by an oracle `buy_result` returning
the fill price on success and `none` on any of its failure paths (no account,
position below minimum notional, no price, broker rejection, exception).
-/

/-- `SignalType`, src/strategies/base_strategy.py lines 18-21. -/
inductive SignalType where
  | BUY
  | SELL
  | HOLD
  deriving DecidableEq, Repr

/-- The `Signal` fields `execute_signals` reads (src/strategies/base_strategy.py
lines 24-41). -/
structure Signal where
  symbol : String
  signal_type : SignalType
  score : Int
  strategy : String
  deriving DecidableEq, Repr

/-- The fields of one entry of `strategy_positions.json` that the scheduler reads
and writes (`StrategyManager.save_strategy_position`, src/strategies/manager.py
lines 261-276: a fresh position's `highest_price` starts at its `entry_price`). -/
structure TrackedPosition where
  strategy : String
  entry_price : ℚ
  score : Int
  deriving DecidableEq, Repr

/-- The registry lookup key: `signal.strategy.lower().replace(" ", "_")`
(src/strategies/manager.py line 307). -/
def strategy_key (name : String) : String :=
  ⟨(name.data.map Char.toLower).map (fun c => if c = ' ' then '_' else c)⟩

/-- Python dict assignment `positions[symbol] = {...}` on an insertion-ordered map. -/
def dict_insert (ps : List (String × TrackedPosition)) (k : String) (v : TrackedPosition) :
    List (String × TrackedPosition) :=
  if ps.any (fun p => p.1 == k) then ps.map (fun p => if p.1 == k then (k, v) else p)
  else ps ++ [(k, v)]

/-- The per-strategy cap re-check of `execute_signals` (src/strategies/manager.py
lines 306-313): look the owning strategy up in the registry by its key; if found,
the signal is blocked when the count of live positions owned by that strategy name
has reached the strategy's `max_positions`. An unknown strategy key skips the cap
check (`if strategy:`). -/
def max_positions_reached (registry : List (String × Nat))
    (positions : List (String × TrackedPosition)) (strat : String) : Bool :=
  match registry.lookup (strategy_key strat) with
  | some mp => decide ((positions.filter (fun p => p.2.strategy == strat)).length ≥ mp)
  | none => false

/-- One iteration of the `execute_signals` loop (src/strategies/manager.py
lines 296-324), acting on the live position map: non-BUY signals are skipped;
a symbol that already has a tracked position is skipped; a strategy at its cap is
skipped; otherwise `_execute_buy` runs and, on success, the position is recorded.
Returns the updated position map and the fill price, if any. -/
def execute_signal_step (registry : List (String × Nat)) (buy_result : Signal → Option ℚ)
    (positions : List (String × TrackedPosition)) (signal : Signal) :
    List (String × TrackedPosition) × Option ℚ :=
  if ¬signal.signal_type = SignalType.BUY then (positions, none)
  else if positions.any (fun p => p.1 == signal.symbol) then (positions, none)
  else if max_positions_reached registry positions signal.strategy then (positions, none)
  else
    match buy_result signal with
    | some price =>
      (dict_insert positions signal.symbol ⟨signal.strategy, price, signal.score⟩, some price)
    | none => (positions, none)

/-- `StrategyManager.execute_signals`, src/strategies/manager.py lines 289-326:
loop over the signals, re-loading the (threaded) live position map at each
iteration, and collect the executed trades. -/
def execute_signals (registry : List (String × Nat)) (buy_result : Signal → Option ℚ)
    (positions : List (String × TrackedPosition)) :
    List Signal → List (String × TrackedPosition) × List (String × ℚ)
  | [] => (positions, [])
  | signal :: rest =>
    match execute_signal_step registry buy_result positions signal with
    | (ps, some price) =>
      let r := execute_signals registry buy_result ps rest
      (r.1, (signal.symbol, price) :: r.2)
    | (ps, none) => execute_signals registry buy_result ps rest

/-- C6: a signal is executed only if it is a BUY, its symbol has no tracked
position in the LIVE position map at its execution step, and — whenever its owning
strategy resolves in the registry — that strategy's live open-position count is
strictly below its `max_positions` cap; and in the claim's concrete scenario
(cap 1 for "Breakout", an open AAPL Breakout position, a fresh score-5 AAPL
Breakout BUY signal) nothing is executed and the position map is unchanged,
whatever the broker would have answered. The cap-block also fires on its own:
with the open Breakout position on MSFT instead, the AAPL signal is still not
executed. -/
theorem C6_execution_gates :
    (∀ registry buy_result ps sig,
      (execute_signal_step registry buy_result ps sig).2.isSome →
        sig.signal_type = SignalType.BUY ∧
        ps.any (fun p => p.1 == sig.symbol) = false ∧
        (∀ mp, registry.lookup (strategy_key sig.strategy) = some mp →
          (ps.filter (fun p => p.2.strategy == sig.strategy)).length < mp)) ∧
    (∀ buy_result,
      execute_signals [("breakout", 1)] buy_result [("AAPL", ⟨"Breakout", 190, 4⟩)]
          [⟨"AAPL", SignalType.BUY, 5, "Breakout"⟩]
        = ([("AAPL", ⟨"Breakout", 190, 4⟩)], [])) ∧
    (∀ buy_result,
      execute_signals [("breakout", 1)] buy_result [("MSFT", ⟨"Breakout", 300, 4⟩)]
          [⟨"AAPL", SignalType.BUY, 5, "Breakout"⟩]
        = ([("MSFT", ⟨"Breakout", 300, 4⟩)], [])) := by
  refine ⟨?_, ?_, ?_⟩
  · intro registry buy_result ps sig h
    unfold execute_signal_step at h
    split_ifs at h with h1 h2 h3 <;> try simp at h
    refine ⟨h1, ?_, ?_⟩
    · cases hb : ps.any (fun p => p.1 == sig.symbol) with
      | false => rfl
      | true => exact absurd hb h2
    intro mp hmp
    unfold max_positions_reached at h3
    rw [hmp] at h3
    have h4 : ¬(ps.filter (fun p => p.2.strategy == sig.strategy)).length ≥ mp := by
      simpa using h3
    omega
  · intro buy_result
    unfold execute_signals
    have hstep : execute_signal_step [("breakout", 1)] buy_result
        [("AAPL", ⟨"Breakout", 190, 4⟩)] ⟨"AAPL", SignalType.BUY, 5, "Breakout"⟩
        = ([("AAPL", ⟨"Breakout", 190, 4⟩)], none) := by
      unfold execute_signal_step
      rw [if_neg (by decide), if_pos (by decide)]
    rw [hstep]
    rfl
  · intro buy_result
    unfold execute_signals
    have hstep : execute_signal_step [("breakout", 1)] buy_result
        [("MSFT", ⟨"Breakout", 300, 4⟩)] ⟨"AAPL", SignalType.BUY, 5, "Breakout"⟩
        = ([("MSFT", ⟨"Breakout", 300, 4⟩)], none) := by
      unfold execute_signal_step
      rw [if_neg (by decide), if_neg (by decide), if_pos (by decide)]
    rw [hstep]
    rfl

/-- C6 witness: the gate conditions of `C6_execution_gates` discharged at a
concrete executed signal (empty position map, cap 1, a BUY that the broker fills). -/
theorem C6_execution_gates_witness :
    (([] : List (String × TrackedPosition)).filter
      (fun p => p.2.strategy == "Breakout")).length < 1 := by
  exact (C6_execution_gates.1 [("breakout", 1)] (fun _ => some (100 : ℚ)) []
    ⟨"AAPL", SignalType.BUY, 5, "Breakout"⟩ (by decide)).2.2 1 (by decide)

/-- C10: non-BUY signals are dropped without effect: a SELL or HOLD signal leaves
the position map untouched and produces no executed trade — for one step and for
whole batches of non-BUY signals. -/
theorem C10_non_buy_signals_dropped :
    (∀ registry buy_result ps sig, ¬sig.signal_type = SignalType.BUY →
      execute_signal_step registry buy_result ps sig = (ps, none)) ∧
    (∀ registry buy_result ps signals, (∀ sig ∈ signals, ¬sig.signal_type = SignalType.BUY) →
      execute_signals registry buy_result ps signals = (ps, [])) := by
  have hstep : ∀ registry buy_result ps sig, ¬sig.signal_type = SignalType.BUY →
      execute_signal_step registry buy_result ps sig = (ps, none) := by
    intro registry buy_result ps sig h
    unfold execute_signal_step
    rw [if_pos h]
  refine ⟨hstep, ?_⟩
  intro registry buy_result ps signals
  induction signals generalizing ps with
  | nil => intro _; rfl
  | cons sig rest ih =>
    intro hall
    unfold execute_signals
    rw [hstep registry buy_result ps sig (hall sig (List.mem_cons_self sig rest))]
    exact ih ps (fun s hs => hall s (List.mem_cons_of_mem sig hs))

/-- C10 witness: a concrete SELL signal against a non-empty position map is a
no-op for both forms. -/
theorem C10_non_buy_signals_dropped_witness :
    execute_signal_step [("breakout", 1)] (fun _ => some (100 : ℚ))
        [("AAPL", ⟨"Breakout", 190, 4⟩)] ⟨"AAPL", SignalType.SELL, 5, "Breakout"⟩
      = ([("AAPL", ⟨"Breakout", 190, 4⟩)], none) ∧
    execute_signals [("breakout", 1)] (fun _ => some (100 : ℚ))
        [("AAPL", ⟨"Breakout", 190, 4⟩)]
        [⟨"AAPL", SignalType.SELL, 5, "Breakout"⟩, ⟨"AAPL", SignalType.HOLD, 3, "Breakout"⟩]
      = ([("AAPL", ⟨"Breakout", 190, 4⟩)], []) := by
  constructor
  · exact C10_non_buy_signals_dropped.1 [("breakout", 1)] (fun _ => some (100 : ℚ))
      [("AAPL", ⟨"Breakout", 190, 4⟩)] ⟨"AAPL", SignalType.SELL, 5, "Breakout"⟩ (by decide)
  · exact C10_non_buy_signals_dropped.2 [("breakout", 1)] (fun _ => some (100 : ℚ))
      [("AAPL", ⟨"Breakout", 190, 4⟩)]
      [⟨"AAPL", SignalType.SELL, 5, "Breakout"⟩, ⟨"AAPL", SignalType.HOLD, 3, "Breakout"⟩]
      (by intro s hs; fin_cases hs <;> decide)

/-! ## Manager invalidation sweep (fail-open composition)

`StrategyManager.check_all_invalidations`, src/strategies/manager.py lines 217-249:
positions whose strategy is unregistered are skipped, a strategy check that raises
is caught and skipped, and only positions whose check returns `should_close=True`
are collected for closing.
-/

/-- `StrategyManager.check_all_invalidations`. `checks strat sym = none` models the
check raising an exception (caught at lines 246-247); `some r` models a normal
return. Each position is a `(symbol, strategy-name)` pair. -/
def check_all_invalidations (registered : List String)
    (checks : String → String → Option StrategyCheckResult)
    (positions : List (String × String)) : List (String × String) :=
  positions.filterMap (fun p =>
    if p.2 ∈ registered then
      match checks p.2 p.1 with
      | some r => if r.should_close then some p else none
      | none => none
    else none)

/-- C9: invalidation is fail-open. An unavailable current price (or a Python-falsy
price of 0) makes the earnings executor's check report no close (and leave the
stored highest untouched); an unavailable history makes the breakout and
mean-reversion checks report no close; and any position whose strategy check
raises (or returns no close) is absent from the manager's to-close list — a
position can only be closed by a check that actually returned `should_close=True`. -/
theorem C9_invalidation_fail_open :
    (∀ rules e h d, earnings_check_invalidation rules e h d none = ⟨false, none, h⟩) ∧
    (∀ rules e h d, earnings_check_invalidation rules e h d (some 0) = ⟨false, none, h⟩) ∧
    (∀ mh e h0 d, breakout_check_invalidation mh e h0 d none = ⟨false, none⟩) ∧
    (∀ rx mh e d, mean_reversion_check_invalidation rx mh e d none = ⟨false, none⟩) ∧
    (∀ registered checks positions, ∀ x ∈ check_all_invalidations registered checks positions,
      ∃ r, checks x.2 x.1 = some r ∧ r.should_close = true) := by
  refine ⟨?_, ?_, ?_, ?_, ?_⟩
  · intro rules e h d
    rfl
  · intro rules e h d
    simp [earnings_check_invalidation]
  · intro mh e h0 d
    unfold breakout_check_invalidation
    split_ifs <;> rfl
  · intro rx mh e d
    unfold mean_reversion_check_invalidation
    split_ifs <;> rfl
  · intro registered checks positions x hx
    unfold check_all_invalidations at hx
    rw [List.mem_filterMap] at hx
    obtain ⟨p, _, hf⟩ := hx
    split_ifs at hf with h1
    cases hr : checks p.2 p.1 with
    | none => rw [hr] at hf; simp at hf
    | some r =>
      rw [hr] at hf
      simp at hf
      obtain ⟨h2, hpx⟩ := hf
      subst hpx
      exact ⟨r, hr, h2⟩

/-- C9 witness: the to-close membership fact discharged at a concrete sweep in
which the single position's check returns a max-loss close. -/
theorem C9_invalidation_fail_open_witness :
    ∃ r, (fun (_ _ : String) => some (⟨true, some ExitRule.maxLoss⟩ : StrategyCheckResult))
        "breakout" "AAPL" = some r ∧ r.should_close = true := by
  exact C9_invalidation_fail_open.2.2.2.2 ["breakout"]
    (fun _ _ => some ⟨true, some ExitRule.maxLoss⟩) [("AAPL", "breakout")]
    ("AAPL", "breakout") (by decide)

end TradingBot
